import Mathlib

/- TgUnArchBot: shallow embedding of the access-control and rate-limiting
gate of the TgUnArchBot Telegram bot (files `config.py`,
`tgunarch/plugins/commands.py`, `tgunarch/plugins/external_tool/fsub.py`),
with theorems settling the frozen claims about it.

Modelling conventions:
* user ids are `Nat`; timestamps are `Int` seconds; calendar dates are `Int`
  day ordinals (UTC), so `datetime.utcnow().date()` becomes the `today` field
  of a request and `vip_data['ends']` an `Int` day ordinal.
* the module-level Python dict `last_used` (user id → datetime) is a
  `List (Nat × Int)` with dict-style lookup and overwrite.
* each fallible collaborator read (MongoDB call, Telegram API call) is an
  `Except DbError _` (or, for the membership probe, a three-valued
  `FsubResult`, because `get_fsub` branches three ways: member /
  `UserNotParticipant` / any other exception).
* the catch-all private-message handler (`commands.py` lines 125-156,
  maintenance + owner + capacity) and the `extract_archive` handler
  (lines 233-296) are composed in sequence into one decision function
  `evaluate`, exactly in the order the checks appear in the source; a branch
  that replies and returns early is a deny decision named after the message
  it sends, and reaching the "PROCESSING2" reply is the ALLOW decision.
-/

namespace TgUnArch

/-- Value of `Config.FREE_USER_TIMER` in `config.py`: 1800 seconds, the
free-user cooldown window. -/
def FREE_USER_TIMER : Int := 1800

/-- Value of `Config.MAX_CONCURRENT_TASKS` in `config.py`: 75. -/
def MAX_CONCURRENT_TASKS : Nat := 75

/-- Runtime configuration of the gate: the owner id (`Config.BOT_OWNER`,
redacted in the source), the cooldown window (`Config.FREE_USER_TIMER`) and
the task ceiling (`Config.MAX_CONCURRENT_TASKS`). -/
structure GateConfig where
  botOwner : Nat
  freeUserTimer : Int
  maxConcurrentTasks : Nat
deriving Repr, DecidableEq

/-- Error raised by a persistence (MongoDB) read; such an exception is not
caught by the handlers, so it aborts the request. -/
inductive DbError
  | storeUnavailable
deriving Repr, DecidableEq

/-- Outcome of `bot.get_chat_member(AUTH_CHANNEL, user_id)` as branched on
by `get_fsub` (`commands.py` lines 77-114): normal return,
`UserNotParticipant`, or any other exception (the bare `except Exception`
branch, which replies with an error message). -/
inductive FsubResult
  | member
  | notParticipant
  | fsubError
deriving Repr, DecidableEq

/-- Which collaborator call failed, carried by the failure outcome. -/
inductive FailCause
  | maintenanceRead
  | ongoingRead
  | subscriptionCheck
  | mergeTaskRead
  | vipRead
deriving Repr, DecidableEq

/-- Decision the composed handlers reach for one inbound extract request.
Each deny constructor names the early-return reply it corresponds to in the
source; `denyBanned` is the decision the spec's ban step would produce (the
embedding must be able to state it in order to settle the ban claim, even
though no handler produces it).  `denyRateLimited` carries the remaining
cooldown in seconds, the quantity
`Config.FREE_USER_TIMER - int((current_time - last_time).total_seconds())`
that the code computes (the reply then renders it divided by 60, as
minutes). -/
inductive Decision
  | allow
  | denyMaintenance
  | denyAtCapacity
  | denyNotSubscribed
  | denyAlreadyRunning
  | denyRateLimited (remainingSeconds : Int)
  | denyStillStarting
  | denyProcessRunning
  | denyBanned
  | checkFailed (cause : FailCause)
deriving Repr, DecidableEq

/-- One inbound request: the sender and the two clock readings the handlers
take (`datetime.utcnow()` for the rate limiter and its `.date()` for VIP
expiry). -/
structure Request where
  userId : Nat
  now : Int
  today : Int
deriving Repr, DecidableEq

/-- External world as the handlers observe it during one request: every
collaborator read, frozen.  `bannedUsers` mirrors the banned-users
collection that the `/ban` and `/unban` commands maintain via
`add_banned_user` / `del_banned_user`; note which fields `evaluate` below
actually reads. -/
structure World where
  /-- result of `get_maintenance()`. -/
  maintenance : Except DbError Bool
  /-- result of `count_ongoing_tasks()`. -/
  ongoingCount : Except DbError Nat
  /-- result of `get_ongoing_tasks()`, as the list of `user_id` fields. -/
  ongoingTasks : Except DbError (List Nat)
  /-- outcome of `get_chat_member(AUTH_CHANNEL, uid)` per user (`get_fsub`). -/
  fsub : Nat → FsubResult
  /-- truthiness of `get_merge_task(uid)` per user. -/
  mergeTask : Nat → Except DbError Bool
  /-- result of `get_vip_user(uid)`: `none` when no VIP record exists, else
  the record's `ends` date as a day ordinal. -/
  vipEnds : Nat → Except DbError (Option Int)
  /-- contents of the banned-users collection. -/
  bannedUsers : List Nat
  /-- value of `os.path.exists(Config.LOCKFILE)`. -/
  lockfileExists : Bool
  /-- value of `os.path.isdir(f"{Config.DOWNLOAD_LOCATION}/{uid}")` per user. -/
  downloadDirExists : Nat → Bool

/-- In-process rate-limit cache: the module-level dict `last_used`, mapping
user id to the timestamp of that user's last pass through the rate-limit
check. -/
def RLCache := List (Nat × Int)

instance : DecidableEq RLCache := by
  unfold RLCache
  infer_instance

/-- Lookup `last_used.get(user_id)`. -/
def lookupLast (c : RLCache) (uid : Nat) : Option Int :=
  match c with
  | [] => none
  | (k, t) :: rest => if k = uid then some t else lookupLast rest uid

/-- Assignment `last_used[user_id] = t`: overwrite the entry if present,
else add it. -/
def setLast (c : RLCache) (uid : Nat) (t : Int) : RLCache :=
  match c with
  | [] => [(uid, t)]
  | (k, t') :: rest =>
    if k = uid then (uid, t) :: rest else (k, t') :: setLast rest uid t

/-- Function `is_vip_active(uid)` (`commands.py` lines 116-123): false when
`get_vip_user` returns nothing, else `current_date <= ends_date`; a
`get_vip_user` failure propagates.  The comparison is date-granular: both
sides are day ordinals, the time of day never enters. -/
def isVipActive (w : World) (uid : Nat) (today : Int) : Except DbError Bool :=
  match w.vipEnds uid with
  | .error e => .error e
  | .ok none => .ok false
  | .ok (some ends) => .ok (decide (today ≤ ends))

/-- Catch-all private-message handler (`commands.py` lines 125-156):
maintenance check (skipped for the owner by the short-circuit of the Python
`and`), owner early return, then the capacity check — `get_ongoing_tasks`
is only read once the count has reached the ceiling, and the "MAX_TASKS"
reply is sent only when the requesting user has no entry in the ongoing-task
list.  `some d` means this handler already denied the request with decision
`d`; `none` means it fell through. -/
def preGate (cfg : GateConfig) (w : World) (uid : Nat) : Option Decision :=
  if uid = cfg.botOwner then
    none
  else
    match w.maintenance with
    | .error _ => some (.checkFailed .maintenanceRead)
    | .ok true => some .denyMaintenance
    | .ok false =>
      match w.ongoingCount with
      | .error _ => some (.checkFailed .ongoingRead)
      | .ok n =>
        if cfg.maxConcurrentTasks ≤ n then
          match w.ongoingTasks with
          | .error _ => some (.checkFailed .ongoingRead)
          | .ok ts => if uid ∈ ts then none else some .denyAtCapacity
        else none

/-- Tail of `extract_archive` after the rate-limit block (`commands.py`
lines 260-275): the `LOCKFILE` check ("STILL_STARTING" reply), the per-user
download-directory check ("PROCESS_RUNNING" reply), then the "PROCESSING2"
reply, which is the ALLOW outcome; `c'` is the cache as the rate-limit
block left it. -/
def postRateChecks (w : World) (uid : Nat) (c' : RLCache) : Decision × RLCache :=
  if w.lockfileExists then (.denyStillStarting, c')
  else if w.downloadDirExists uid then (.denyProcessRunning, c')
  else (.allow, c')

/-- Body of the `extract_archive` handler (`commands.py` lines 233-296),
after the private-chat filter: `get_fsub` (member / not-participant reply /
error reply), `get_merge_task` early return, `is_vip_active`, the rate-limit
block for non-VIP users (deny with the remaining seconds when
`(current_time - last_time).total_seconds()` is strictly below
`FREE_USER_TIMER`, else overwrite `last_used[user_id] = current_time` and
continue), then the lockfile/directory checks and the ALLOW outcome.
Returns the decision and the `last_used` cache after the handler ran. -/
def extractGate (cfg : GateConfig) (w : World) (req : Request) (c : RLCache) :
    Decision × RLCache :=
  match w.fsub req.userId with
  | .notParticipant => (.denyNotSubscribed, c)
  | .fsubError => (.checkFailed .subscriptionCheck, c)
  | .member =>
    match w.mergeTask req.userId with
    | .error _ => (.checkFailed .mergeTaskRead, c)
    | .ok true => (.denyAlreadyRunning, c)
    | .ok false =>
      match isVipActive w req.userId req.today with
      | .error _ => (.checkFailed .vipRead, c)
      | .ok vip =>
        if vip then postRateChecks w req.userId c
        else
          match lookupLast c req.userId with
          | some t =>
            if req.now - t < cfg.freeUserTimer then
              (.denyRateLimited (cfg.freeUserTimer - (req.now - t)), c)
            else postRateChecks w req.userId (setLast c req.userId req.now)
          | none => postRateChecks w req.userId (setLast c req.userId req.now)

/-- Decision the bot reaches for one inbound extract request: the catch-all
private handler's checks followed by `extract_archive`'s checks, in source
order. -/
def evaluate (cfg : GateConfig) (w : World) (req : Request) (c : RLCache) :
    Decision × RLCache :=
  match preGate cfg w req.userId with
  | some d => (d, c)
  | none => extractGate cfg w req c

/-- Body of the `merging` handler (`commands.py` lines 457-482): `get_fsub`,
`is_vip_active`, the rate-limit block for non-VIP users, then the "MERGE"
reply plus `add_merge_task`, which is the ALLOW outcome.  It has no lockfile
or directory check after the cache write. -/
def mergeGate (cfg : GateConfig) (w : World) (req : Request) (c : RLCache) :
    Decision × RLCache :=
  match w.fsub req.userId with
  | .notParticipant => (.denyNotSubscribed, c)
  | .fsubError => (.checkFailed .subscriptionCheck, c)
  | .member =>
    match isVipActive w req.userId req.today with
    | .error _ => (.checkFailed .vipRead, c)
    | .ok vip =>
      if vip then (.allow, c)
      else
        match lookupLast c req.userId with
        | some t =>
          if req.now - t < cfg.freeUserTimer then
            (.denyRateLimited (cfg.freeUserTimer - (req.now - t)), c)
          else (.allow, setLast c req.userId req.now)
        | none => (.allow, setLast c req.userId req.now)

/-- First collaborator error the evaluation path encounters, written as an
independent walk over the calls in source order: for the owner the pre-gate
reads nothing; a non-owner reads `get_maintenance`, then (when maintenance
is off) `count_ongoing_tasks`, then `get_ongoing_tasks` only once the count
has reached the ceiling; a request that survives the pre-gate reads
`get_chat_member`, then `get_merge_task`, then `get_vip_user`; the
rate-limit, lockfile and directory checks make no collaborator call.  The
helper `extractCollabError` covers the `extract_archive` part. -/
def extractCollabError (w : World) (uid : Nat) : Option FailCause :=
  match w.fsub uid with
  | .fsubError => some .subscriptionCheck
  | .notParticipant => none
  | .member =>
    match w.mergeTask uid with
    | .error _ => some .mergeTaskRead
    | .ok true => none
    | .ok false =>
      match w.vipEnds uid with
      | .error _ => some .vipRead
      | .ok _ => none

/-- See `extractCollabError`: the whole path, pre-gate included. -/
def firstCollabError (cfg : GateConfig) (w : World) (uid : Nat) : Option FailCause :=
  if uid = cfg.botOwner then extractCollabError w uid
  else
    match w.maintenance with
    | .error _ => some .maintenanceRead
    | .ok true => none
    | .ok false =>
      match w.ongoingCount with
      | .error _ => some .ongoingRead
      | .ok n =>
        if cfg.maxConcurrentTasks ≤ n then
          match w.ongoingTasks with
          | .error _ => some .ongoingRead
          | .ok ts => if uid ∈ ts then extractCollabError w uid else none
        else extractCollabError w uid

/-- Predicate singling out the ordinary deny decisions, as opposed to
`allow` and the failure outcome `checkFailed`. -/
def ordinaryDeny : Decision → Bool
  | .denyMaintenance => true
  | .denyAtCapacity => true
  | .denyNotSubscribed => true
  | .denyAlreadyRunning => true
  | .denyRateLimited _ => true
  | .denyStillStarting => true
  | .denyProcessRunning => true
  | .denyBanned => true
  | .allow => false
  | .checkFailed _ => false

/-- Outcome of the "I Joined" callback handler `check_fsub_callback`
(`fsub.py` lines 44-76). -/
inductive CbOutcome
  | rejectedWrongUser
  | joinedConfirmed
  | stillNotJoined
  | aborted
deriving Repr, DecidableEq

/-- Observable effects of one run of `check_fsub_callback`: whether
`get_chat_member` was called, whether the prompt message was deleted,
whether it was edited, and the outcome. -/
structure CbRun where
  membershipChecked : Bool
  messageDeleted : Bool
  messageEdited : Bool
  outcome : CbOutcome
deriving Repr, DecidableEq

/-- Handler `check_fsub_callback` (`fsub.py` lines 44-76).  The callback
data is `f"check_fsub_{user_id}"` built by `get_fsub` for the user the
prompt was addressed to; the handler parses that id back out
(`int(callback_query.data.split("_")[2])`, here the `target` argument) and
compares it with the pressing user's id.  On a mismatch it answers with a
rejection alert and returns; on a match it re-checks membership: a member
gets an answer + message deletion + a new /start prompt, a non-participant
gets the prompt edited and a taunt answer, and any other `get_chat_member`
exception propagates (no deletion, no edit). -/
def checkFsubCallback (membership : Nat → FsubResult) (pressing target : Nat) :
    CbRun :=
  if pressing ≠ target then
    ⟨false, false, false, .rejectedWrongUser⟩
  else
    match membership pressing with
    | .member => ⟨true, true, false, .joinedConfirmed⟩
    | .notParticipant => ⟨true, false, true, .stillNotJoined⟩
    | .fsubError => ⟨true, false, false, .aborted⟩

/-- Sample configuration for concrete instances: owner id 1, the
`config.py` cooldown and ceiling. -/
def cfgA : GateConfig := ⟨1, FREE_USER_TIMER, MAX_CONCURRENT_TASKS⟩

/-- Benign baseline world: maintenance off, 10 of 75 tasks, every user a
channel member, no merge task, no VIP record, nobody banned, no lockfile,
no per-user download directory. -/
def baseWorld : World :=
  { maintenance := .ok false
    ongoingCount := .ok 10
    ongoingTasks := .ok []
    fsub := fun _ => .member
    mergeTask := fun _ => .ok false
    vipEnds := fun _ => .ok none
    bannedUsers := []
    lockfileExists := false
    downloadDirExists := fun _ => false }

/-- World for the VIP-boundary instance: VIP record ending on day 100. -/
def worldC4a : World := { baseWorld with vipEnds := fun _ => .ok (some 100) }

/-- World for the VIP-boundary instance: VIP record ending on day 99. -/
def worldC4b : World := { baseWorld with vipEnds := fun _ => .ok (some 99) }

/-- World in which user 5 has a registered merge task but is not a channel
member. -/
def worldC5 : World :=
  { baseWorld with
      fsub := fun _ => FsubResult.notParticipant
      mergeTask := fun _ => Except.ok true }

/-- World at the task ceiling with the requesting user absent from the
ongoing-task list. -/
def worldC6a : World := { baseWorld with ongoingCount := .ok 75 }

/-- World at the task ceiling with user 5 present in the ongoing-task
list. -/
def worldC6b : World :=
  { baseWorld with ongoingCount := .ok 75, ongoingTasks := .ok [5] }

/-- World in which the membership probe raises a non-`UserNotParticipant`
exception. -/
def worldC7 : World := { baseWorld with fsub := fun _ => .fsubError }

/-- World in which user 5 is in the banned-users collection and everything
else passes. -/
def worldC8 : World := { baseWorld with bannedUsers := [5] }

/-- World in which every user has a VIP record ending on day 105. -/
def worldC9 : World := { baseWorld with vipEnds := fun _ => .ok (some 105) }

/-- Helper: `extract_archive` can never produce the pre-gate denials
(maintenance, capacity) nor a ban denial. -/
lemma extractGate_fst_not_pre (cfg : GateConfig) (w : World) (req : Request)
    (c : RLCache) :
    (extractGate cfg w req c).1 ≠ Decision.denyMaintenance ∧
    (extractGate cfg w req c).1 ≠ Decision.denyAtCapacity ∧
    (extractGate cfg w req c).1 ≠ Decision.denyBanned := by
  unfold extractGate postRateChecks
  refine ⟨?_, ?_, ?_⟩ <;> (repeat' split) <;> simp

/-- Helper: the catch-all handler never denies the owner. -/
lemma preGate_owner (cfg : GateConfig) (w : World) (uid : Nat)
    (h : uid = cfg.botOwner) :
    preGate cfg w uid = none := by
  unfold preGate
  simp [h]

/-- Helper: `extract_archive` leaves the cache untouched except on the
paths that already passed the rate-limit block. -/
lemma extractGate_snd_cases (cfg : GateConfig) (w : World) (req : Request)
    (c : RLCache) :
    (extractGate cfg w req c).2 = c ∨
    ((extractGate cfg w req c).1 = Decision.allow ∨
     (extractGate cfg w req c).1 = Decision.denyStillStarting ∨
     (extractGate cfg w req c).1 = Decision.denyProcessRunning) := by
  unfold extractGate postRateChecks
  (repeat' split) <;> simp

/-- Helper: `merging` leaves the cache untouched except when it allows. -/
lemma mergeGate_snd_cases (cfg : GateConfig) (w : World) (req : Request)
    (c : RLCache) :
    (mergeGate cfg w req c).2 = c ∨ (mergeGate cfg w req c).1 = Decision.allow := by
  unfold mergeGate
  (repeat' split) <;> simp

/-- Helper: a user present in the ongoing-task list is never denied for
capacity by the catch-all handler. -/
lemma preGate_mem_ne_atCapacity (cfg : GateConfig) (w : World) (uid : Nat)
    (ts : List Nat) (hts : w.ongoingTasks = .ok ts) (hmem : uid ∈ ts) :
    preGate cfg w uid ≠ some Decision.denyAtCapacity := by
  unfold preGate
  (repeat' split) <;> simp_all

/-- Helper: the catch-all handler never produces a ban denial. -/
lemma preGate_ne_banned (cfg : GateConfig) (w : World) (uid : Nat) :
    preGate cfg w uid ≠ some Decision.denyBanned := by
  unfold preGate
  (repeat' split) <;> simp

/-- Helper: on the `extract_archive` part of the path, a collaborator error
is hit iff the handler ends in the failure outcome with that cause. -/
lemma extractCollabError_iff (cfg : GateConfig) (w : World) (req : Request)
    (c : RLCache) (cause : FailCause) :
    extractCollabError w req.userId = some cause ↔
      (extractGate cfg w req c).1 = Decision.checkFailed cause := by
  unfold extractCollabError extractGate isVipActive postRateChecks
  cases hv : w.vipEnds req.userId with
  | error e => (repeat' split) <;> simp_all
  | ok r => cases r <;> ((repeat' split) <;> simp_all)

/-- Claim C1, counterexample: with the owner (user 1) not a channel member
and every other check passing, the decision is DENY(NOT_SUBSCRIBED), not
ALLOW — the owner does not bypass every later check. -/
theorem c1_counterexample :
    (⟨1, 10000, 100⟩ : Request).userId = cfgA.botOwner ∧
    (evaluate cfgA { baseWorld with fsub := fun _ => .notParticipant }
      ⟨1, 10000, 100⟩ []).1 = Decision.denyNotSubscribed ∧
    (evaluate cfgA { baseWorld with fsub := fun _ => .notParticipant }
      ⟨1, 10000, 100⟩ []).1 ≠ Decision.allow := by
  decide

/-- Claim C1, amended: an owner request bypasses exactly the catch-all
handler's checks — it can never be denied for maintenance or capacity and
goes straight to `extract_archive` — but it is still subject to the
subscription, merge-task, VIP/rate-limit, lockfile and directory checks
like any other request. -/
theorem c1_theorem (cfg : GateConfig) (w : World) (req : Request) (c : RLCache)
    (h : req.userId = cfg.botOwner) :
    evaluate cfg w req c = extractGate cfg w req c ∧
    (evaluate cfg w req c).1 ≠ Decision.denyMaintenance ∧
    (evaluate cfg w req c).1 ≠ Decision.denyAtCapacity := by
  have he : evaluate cfg w req c = extractGate cfg w req c := by
    unfold evaluate
    rw [preGate_owner cfg w req.userId h]
  refine ⟨he, ?_, ?_⟩ <;> rw [he]
  · exact (extractGate_fst_not_pre cfg w req c).1
  · exact (extractGate_fst_not_pre cfg w req c).2.1

/-- Claim C1, witness: the amended theorem applied to the owner in the
baseline world. -/
theorem c1_witness :
    evaluate cfgA baseWorld ⟨1, 10000, 100⟩ [] =
      extractGate cfgA baseWorld ⟨1, 10000, 100⟩ [] ∧
    (evaluate cfgA baseWorld ⟨1, 10000, 100⟩ []).1 ≠ Decision.denyMaintenance ∧
    (evaluate cfgA baseWorld ⟨1, 10000, 100⟩ []).1 ≠ Decision.denyAtCapacity :=
  c1_theorem cfgA baseWorld ⟨1, 10000, 100⟩ [] (by decide)

/-- Claim C2: with the cooldown window at its configured 1800 seconds, a
non-VIP request that reaches the rate-limit block with a cached timestamp
exactly `now - 1800` is allowed (strict less-than is the blocking
condition) and the cache is advanced to `now`; with the timestamp
`now - 1799` it is denied RATE_LIMITED carrying remaining seconds
`1800 - 1799 = 1`, and the cache is left unchanged. -/
theorem c2_theorem (cfg : GateConfig) (w : World) (req : Request)
    (c₁ c₂ : RLCache)
    (htimer : cfg.freeUserTimer = FREE_USER_TIMER)
    (hpre : preGate cfg w req.userId = none)
    (hf : w.fsub req.userId = .member)
    (hmt : w.mergeTask req.userId = .ok false)
    (hvip : isVipActive w req.userId req.today = .ok false)
    (hl : w.lockfileExists = false)
    (hd : w.downloadDirExists req.userId = false)
    (h1 : lookupLast c₁ req.userId = some (req.now - 1800))
    (h2 : lookupLast c₂ req.userId = some (req.now - 1799)) :
    evaluate cfg w req c₁ = (Decision.allow, setLast c₁ req.userId req.now) ∧
    evaluate cfg w req c₂ = (Decision.denyRateLimited 1, c₂) := by
  have e1 : req.now - (req.now - 1800) = 1800 := by ring
  have e2 : req.now - (req.now - 1799) = 1799 := by ring
  unfold evaluate extractGate postRateChecks
  rw [hpre]
  simp only [hf, hmt, hvip, h1, h2, htimer, e1, e2, hl, hd, FREE_USER_TIMER]
  norm_num

/-- Claim C2, witness: user 5 at time 10000 with cached timestamps 8200
(elapsed exactly 1800) and 8201 (elapsed 1799). -/
theorem c2_witness :
    evaluate cfgA baseWorld ⟨5, 10000, 100⟩ [(5, 8200)] =
      (Decision.allow, setLast [(5, 8200)] 5 10000) ∧
    evaluate cfgA baseWorld ⟨5, 10000, 100⟩ [(5, 8201)] =
      (Decision.denyRateLimited 1, [(5, 8201)]) :=
  c2_theorem cfgA baseWorld ⟨5, 10000, 100⟩ [(5, 8200)] [(5, 8201)]
    (by decide) (by decide) rfl rfl rfl rfl rfl (by decide) (by decide)

/-- Claim C3, counterexample: with the lockfile present, a non-VIP request
of user 5 passes the rate-limit block (which writes `last_used[5] = now`)
and is then denied STILL_STARTING — a denied request whose final decision
is not ALLOW did mutate the rate-limit cache, resetting the cooldown
clock. -/
theorem c3_counterexample :
    (evaluate cfgA { baseWorld with lockfileExists := true }
      ⟨5, 10000, 100⟩ []).1 ≠ Decision.allow ∧
    (evaluate cfgA { baseWorld with lockfileExists := true }
      ⟨5, 10000, 100⟩ []).2 ≠ ([] : RLCache) ∧
    evaluate cfgA { baseWorld with lockfileExists := true } ⟨5, 10000, 100⟩ [] =
      (Decision.denyStillStarting, [(5, 10000)]) := by
  decide

/-- Claim C3, amended: the rate-limit cache is unchanged on every deny up
to and including DENY(RATE_LIMITED) and on every failure outcome — only
the ALLOW path and the two checks that come after the cache write in
`extract_archive` (lockfile "STILL_STARTING" and download-directory
"PROCESS_RUNNING") can leave a mutated cache behind; the `merging` handler
mutates the cache only on its ALLOW path. -/
theorem c3_theorem (cfg : GateConfig) (w : World) (req : Request) (c : RLCache)
    (h1 : (evaluate cfg w req c).1 ≠ Decision.allow)
    (h2 : (evaluate cfg w req c).1 ≠ Decision.denyStillStarting)
    (h3 : (evaluate cfg w req c).1 ≠ Decision.denyProcessRunning)
    (h4 : (mergeGate cfg w req c).1 ≠ Decision.allow) :
    (evaluate cfg w req c).2 = c ∧ (mergeGate cfg w req c).2 = c := by
  constructor
  · unfold evaluate at *
    cases hp : preGate cfg w req.userId with
    | some d => simp [hp]
    | none =>
      simp only [hp] at h1 h2 h3 ⊢
      simp at h1 h2 h3 ⊢
      rcases extractGate_snd_cases cfg w req c with h | h | h | h
      · exact h
      · exact absurd h h1
      · exact absurd h h2
      · exact absurd h h3
  · rcases mergeGate_snd_cases cfg w req c with h | h
    · exact h
    · exact absurd h h4

/-- Claim C3, witness: a rate-limited request (user 5 cached at 9999, now
10000) leaves the cache unchanged in both handlers. -/
theorem c3_witness :
    (evaluate cfgA baseWorld ⟨5, 10000, 100⟩ [(5, 9999)]).2 = [(5, 9999)] ∧
    (mergeGate cfgA baseWorld ⟨5, 10000, 100⟩ [(5, 9999)]).2 = [(5, 9999)] :=
  c3_theorem cfgA baseWorld ⟨5, 10000, 100⟩ [(5, 9999)]
    (by decide) (by decide) (by decide) (by decide)

/-- Claim C4: VIP-active holds iff a VIP record exists and today's UTC date
is at most the record's end date; a record ending today is active, a record
ending yesterday is not (the comparison is on day ordinals, so it is
independent of the time of day). -/
theorem c4_theorem (w w₁ w₂ : World) (uid : Nat) (today : Int) (b : Bool)
    (hb : isVipActive w uid today = .ok b)
    (h1 : w₁.vipEnds uid = .ok (some today))
    (h2 : w₂.vipEnds uid = .ok (some (today - 1))) :
    (b = true ↔ ∃ ends, w.vipEnds uid = .ok (some ends) ∧ today ≤ ends) ∧
    isVipActive w₁ uid today = .ok true ∧
    isVipActive w₂ uid today = .ok false := by
  refine ⟨?_, ?_, ?_⟩
  · unfold isVipActive at hb
    cases hv : w.vipEnds uid with
    | error e =>
      rw [hv] at hb
      exact absurd hb (by simp)
    | ok r =>
      rw [hv] at hb
      cases r with
      | none =>
        simp at hb
        simp [← hb]
      | some ends =>
        simp at hb
        subst hb
        simp
  · unfold isVipActive
    rw [h1]
    simp
  · unfold isVipActive
    rw [h2]
    simp

/-- Claim C4, witness: a record ending on day 100 is active on day 100, a
record ending on day 99 is not. -/
theorem c4_witness :
    (true = true ↔
      ∃ ends, worldC4a.vipEnds 5 = .ok (some ends) ∧ (100 : Int) ≤ ends) ∧
    isVipActive worldC4a 5 100 = .ok true ∧
    isVipActive worldC4b 5 100 = .ok false :=
  c4_theorem worldC4a worldC4a worldC4b 5 100 true rfl rfl rfl

/-- Claim C5, counterexample: user 5 has a registered merge task and is not
a channel member; the decision is DENY(NOT_SUBSCRIBED), not
DENY(ALREADY_RUNNING) — the membership check fires first, contrary to the
claimed order. -/
theorem c5_counterexample :
    worldC5.mergeTask 5 = .ok true ∧
    (evaluate cfgA worldC5 ⟨5, 10000, 100⟩ []).1 = Decision.denyNotSubscribed ∧
    (evaluate cfgA worldC5 ⟨5, 10000, 100⟩ []).1 ≠ Decision.denyAlreadyRunning :=
  ⟨rfl, by decide, by decide⟩

/-- Claim C5, amended: the gate short-circuits in the source's order, in
which `get_fsub` runs before the merge-task check — a request that survives
the pre-gate from a user who has a task registered and is not a channel
member is denied NOT_SUBSCRIBED, never ALREADY_RUNNING. -/
theorem c5_theorem (cfg : GateConfig) (w : World) (req : Request) (c : RLCache)
    (hpre : preGate cfg w req.userId = none)
    (_hm : w.mergeTask req.userId = .ok true)
    (hf : w.fsub req.userId = .notParticipant) :
    (evaluate cfg w req c).1 = Decision.denyNotSubscribed ∧
    (evaluate cfg w req c).1 ≠ Decision.denyAlreadyRunning := by
  unfold evaluate extractGate
  rw [hpre]
  simp [hf]

/-- Claim C5, witness: the amended theorem at the concrete world of the
counterexample. -/
theorem c5_witness :
    (evaluate cfgA worldC5 ⟨5, 10000, 100⟩ []).1 = Decision.denyNotSubscribed ∧
    (evaluate cfgA worldC5 ⟨5, 10000, 100⟩ []).1 ≠ Decision.denyAlreadyRunning :=
  c5_theorem cfgA worldC5 ⟨5, 10000, 100⟩ [] (by decide) rfl rfl

/-- Claim C6: for a non-owner request arriving with the ongoing-task count
at or above the ceiling, a user absent from the ongoing-task list is denied
AT_CAPACITY, while a user present in it is never denied AT_CAPACITY. -/
theorem c6_theorem (cfg : GateConfig) (w₁ w₂ : World) (req : Request)
    (c : RLCache) (n₁ : Nat) (ts₁ ts₂ : List Nat)
    (howner : req.userId ≠ cfg.botOwner)
    (hm1 : w₁.maintenance = .ok false)
    (hc1 : w₁.ongoingCount = .ok n₁)
    (hn1 : cfg.maxConcurrentTasks ≤ n₁)
    (hts1 : w₁.ongoingTasks = .ok ts₁)
    (habs : req.userId ∉ ts₁)
    (hts2 : w₂.ongoingTasks = .ok ts₂)
    (hmem : req.userId ∈ ts₂) :
    (evaluate cfg w₁ req c).1 = Decision.denyAtCapacity ∧
    (evaluate cfg w₂ req c).1 ≠ Decision.denyAtCapacity := by
  constructor
  · have hp : preGate cfg w₁ req.userId = some Decision.denyAtCapacity := by
      unfold preGate
      simp [howner, hm1, hc1, hn1, hts1, habs]
    unfold evaluate
    rw [hp]
  · unfold evaluate
    cases hp : preGate cfg w₂ req.userId with
    | some d =>
      have hne := preGate_mem_ne_atCapacity cfg w₂ req.userId ts₂ hts2 hmem
      rw [hp] at hne
      simp only []
      intro hcontra
      exact hne (by rw [hcontra])
    | none =>
      simp only []
      exact (extractGate_fst_not_pre cfg w₂ req c).2.1

/-- Claim C6, witness: at 75/75 tasks, user 5 absent from the task list is
denied AT_CAPACITY, user 5 present in it is not. -/
theorem c6_witness :
    (evaluate cfgA worldC6a ⟨5, 10000, 100⟩ []).1 = Decision.denyAtCapacity ∧
    (evaluate cfgA worldC6b ⟨5, 10000, 100⟩ []).1 ≠ Decision.denyAtCapacity :=
  c6_theorem cfgA worldC6a worldC6b ⟨5, 10000, 100⟩ [] 75 [] [5]
    (by decide) rfl rfl (by decide) rfl (by decide) rfl (by decide)

/-- Claim C7: a collaborator call fails somewhere on the evaluation path
iff the decision is the failure outcome carrying that call's cause — so a
collaborator error is never swallowed into ALLOW and never reported as one
of the ordinary deny reasons, the failure outcome being a constructor
distinct from both. -/
theorem c7_theorem (cfg : GateConfig) (w : World) (req : Request) (c : RLCache)
    (cause : FailCause) :
    (firstCollabError cfg w req.userId = some cause ↔
      (evaluate cfg w req c).1 = Decision.checkFailed cause) ∧
    Decision.checkFailed cause ≠ Decision.allow ∧
    ordinaryDeny (Decision.checkFailed cause) = false := by
  refine ⟨?_, by simp, rfl⟩
  by_cases h : req.userId = cfg.botOwner
  · have hp : preGate cfg w req.userId = none := preGate_owner cfg w req.userId h
    unfold evaluate firstCollabError
    rw [hp]
    simp only [if_pos h]
    exact extractCollabError_iff cfg w req c cause
  · unfold evaluate firstCollabError preGate
    simp only [if_neg h]
    cases hm : w.maintenance with
    | error e => simp
    | ok b =>
      cases b with
      | true => simp
      | false =>
        cases hc : w.ongoingCount with
        | error e => simp
        | ok n =>
          by_cases hn : cfg.maxConcurrentTasks ≤ n
          · simp only [if_pos hn]
            cases hts : w.ongoingTasks with
            | error e => simp
            | ok ts =>
              by_cases hmem : req.userId ∈ ts
              · simp only [if_pos hmem]
                exact extractCollabError_iff cfg w req c cause
              · simp only [if_neg hmem]
                simp
          · simp only [if_neg hn]
            exact extractCollabError_iff cfg w req c cause

/-- Claim C7, witness: with the membership probe erroring for user 5, the
decision is the failure outcome for the subscription check. -/
theorem c7_witness :
    (firstCollabError cfgA worldC7 5 = some .subscriptionCheck ↔
      (evaluate cfgA worldC7 ⟨5, 10000, 100⟩ []).1 =
        Decision.checkFailed .subscriptionCheck) ∧
    Decision.checkFailed FailCause.subscriptionCheck ≠ Decision.allow ∧
    ordinaryDeny (Decision.checkFailed FailCause.subscriptionCheck) = false :=
  c7_theorem cfgA worldC7 ⟨5, 10000, 100⟩ [] .subscriptionCheck

/-- Claim C8, counterexample: user 5 is in the banned-users collection, is
not the owner, and every other check passes — the decision is ALLOW, not
DENY(BANNED): no ban check exists on the inbound path. -/
theorem c8_counterexample :
    (5 : Nat) ∈ worldC8.bannedUsers ∧
    (5 : Nat) ≠ cfgA.botOwner ∧
    (evaluate cfgA worldC8 ⟨5, 10000, 100⟩ []).1 = Decision.allow ∧
    (evaluate cfgA worldC8 ⟨5, 10000, 100⟩ []).1 ≠ Decision.denyBanned := by
  decide

/-- Claim C8, amended: the gate performs no ban check — `evaluate` never
returns DENY(BANNED), and its result does not depend on the banned-users
collection at all (banning a user only removes them from the broadcast
user list). -/
theorem c8_theorem (cfg : GateConfig) (w : World) (req : Request) (c : RLCache)
    (b : List Nat) :
    (evaluate cfg w req c).1 ≠ Decision.denyBanned ∧
    evaluate cfg { w with bannedUsers := b } req c = evaluate cfg w req c := by
  constructor
  · unfold evaluate
    cases hp : preGate cfg w req.userId with
    | some d =>
      have hne := preGate_ne_banned cfg w req.userId
      rw [hp] at hne
      simp only []
      intro hcontra
      exact hne (by rw [hcontra])
    | none =>
      simp only []
      exact (extractGate_fst_not_pre cfg w req c).2.2
  · rfl

/-- Claim C9: for a VIP-active user whose request passes the surrounding
checks, `evaluate` returns ALLOW with the rate-limit cache unchanged, so an
immediate second call on the resulting cache returns ALLOW again — the VIP
path skips rate limiting entirely and never mutates the cache. -/
theorem c9_theorem (cfg : GateConfig) (w : World) (req : Request) (c : RLCache)
    (ends : Int)
    (hv : w.vipEnds req.userId = .ok (some ends))
    (hle : req.today ≤ ends)
    (hpre : preGate cfg w req.userId = none)
    (hf : w.fsub req.userId = .member)
    (hmt : w.mergeTask req.userId = .ok false)
    (hl : w.lockfileExists = false)
    (hd : w.downloadDirExists req.userId = false) :
    evaluate cfg w req c = (Decision.allow, c) ∧
    evaluate cfg w req (evaluate cfg w req c).2 = (Decision.allow, c) := by
  have hvip : isVipActive w req.userId req.today = .ok true := by
    unfold isVipActive
    rw [hv]
    simp [hle]
  have h1 : evaluate cfg w req c = (Decision.allow, c) := by
    unfold evaluate extractGate postRateChecks
    rw [hpre]
    simp [hf, hmt, hvip, hl, hd]
  refine ⟨h1, ?_⟩
  rw [h1]
  exact h1

/-- Claim C9, witness: user 5 VIP until day 105, requesting on day 100 with
a cache entry only one second old: both immediate calls allow and the cache
keeps its old entry. -/
theorem c9_witness :
    evaluate cfgA worldC9 ⟨5, 10000, 100⟩ [(5, 9999)] =
      (Decision.allow, [(5, 9999)]) ∧
    evaluate cfgA worldC9 ⟨5, 10000, 100⟩
        (evaluate cfgA worldC9 ⟨5, 10000, 100⟩ [(5, 9999)]).2 =
      (Decision.allow, [(5, 9999)]) :=
  c9_theorem cfgA worldC9 ⟨5, 10000, 100⟩ [(5, 9999)] 105 rfl (by decide)
    (by decide) rfl rfl rfl rfl

/-- Claim C10: when the pressing user's id differs from the id embedded in
the callback data, `check_fsub_callback` only answers the rejection alert —
no membership re-check, no message deletion, no message edit; the
membership re-check runs exactly when the two ids are equal. -/
theorem c10_theorem (m : Nat → FsubResult) (p t : Nat) :
    (p ≠ t → checkFsubCallback m p t =
      ⟨false, false, false, CbOutcome.rejectedWrongUser⟩) ∧
    ((checkFsubCallback m p t).membershipChecked = true ↔ p = t) := by
  constructor
  · intro h
    unfold checkFsubCallback
    simp [h]
  · unfold checkFsubCallback
    by_cases h : p = t
    · simp only [h]
      simp
      cases m t <;> simp
    · simp [h]

/-- Claim C10, witness: user 2 pressing the button addressed to user 5 is
rejected without any membership check, deletion or edit. -/
theorem c10_witness :
    checkFsubCallback (fun _ => FsubResult.member) 2 5 =
      ⟨false, false, false, CbOutcome.rejectedWrongUser⟩ ∧
    ((checkFsubCallback (fun _ => FsubResult.member) 2 5).membershipChecked = true ↔
      (2 : Nat) = 5) :=
  ⟨(c10_theorem (fun _ => FsubResult.member) 2 5).1 (by decide),
   (c10_theorem (fun _ => FsubResult.member) 2 5).2⟩

end TgUnArch
